import Mathlib

set_option maxRecDepth 20000

/-!
Shallow embedding of the RAG backend core (`gemini_rag.py`, `main.py`):
the embedding provider wrapper, the vector-search wrapper with its
fallbacks, prompt composition (personalization, language directive,
context block), answer generation, translation and personalization
operations, and the `ask_question` orchestration.

External effectful dependencies (the Gemini embedding/generation APIs
and the Qdrant search client) are modelled as function-valued records
returning `Except String α`: `.error e` stands for the provider raising
an exception whose `str(e)` is `e`.  Python `None` vs missing-key
behaviour of `dict.get` is modelled explicitly with `PyVal` /
`Option PyVal`.
-/

/-- A Python value stored in the profile dict: either `None` or a string. -/
inductive PyVal where
  | pynone
  | pystr (s : String)
deriving DecidableEq

/-- How a `PyVal` prints inside a Python f-string: `None` renders as the
literal text `"None"`, a string renders as itself. -/
def PyVal.render : PyVal → String
  | .pynone => "None"
  | .pystr s => s

/-- `d.get(key, default)` followed by f-string rendering, for a dict slot
modelled as `Option PyVal` (`none` = key absent from the dict, in which
case the string `default` is used; `some v` = key present with value `v`,
which is rendered even when it is Python `None`). -/
def dictGet (slot : Option PyVal) (dflt : String) : String :=
  match slot with
  | some v => v.render
  | none => dflt

/-- The `user_profile` dict built by `main.py` (`ask_question` /
`personalize_content` callers): each field is `none` when the key is
absent from the dict, `some v` when present with value `v`. -/
structure ProfileDict where
  software_background : Option PyVal
  hardware_background : Option PyVal
  experience_level : Option PyVal
  operating_system : Option PyVal
deriving DecidableEq

/-- A Qdrant `ScoredPoint` as the code consumes it: `payload` is the
payload dict restricted to string values (`search_context` only reads
`payload.get("text", "")`). -/
structure ScoredPoint where
  id : Nat
  version : Nat
  score : Float
  payload : List (String × String)
  vector : List Float

/-- `payload.get(key, default)` on a string-valued payload dict. -/
def payloadGet (payload : List (String × String)) (key dflt : String) : String :=
  match payload.find? (fun kv => kv.1 == key) with
  | some kv => kv.2
  | none => dflt

/-- The Gemini embedding endpoint (`genai.embed_content` + the
`result['embedding']` projection): `.error e` models any exception. -/
structure EmbedProvider where
  embed_content : String → Except String (List Float)

/-- The Qdrant search client: arguments are collection name, query
vector, limit; `.error e` models any exception (connection failure
included). -/
structure SearchClient where
  search : String → List Float → Nat → Except String (List ScoredPoint)

/-- The Gemini generative model (`self.model.generate_content(prompt)`
followed by `.text`): `.error e` models any exception. -/
structure GenModel where
  generate_content : String → Except String String

/-- `GeminiRAG.generate_embedding`: returns the provider's embedding, or
`[0.0] * 768` if the provider raises. -/
def generate_embedding (provider : EmbedProvider) (text : String) : List Float :=
  match provider.embed_content text with
  | .ok v => v
  | .error _ => List.replicate 768 0.0

/-- The canned passage returned by `search_context` when any exception
escapes the embedding/search block. -/
def searchFallbackText : String :=
  "ROS 2 is a middleware framework for robotics applications."

/-- `GeminiRAG.search_context`: embeds the query, searches the
`textbook_content` collection, and maps each hit to
`hit.payload.get("text", "")`; on any exception returns the single
canned passage. -/
def search_context (provider : EmbedProvider) (client : SearchClient)
    (query : String) (limit : Nat := 3) : List String :=
  match client.search "textbook_content" (generate_embedding provider query) limit with
  | .ok hits => hits.map (fun hit => payloadGet hit.payload "text" "")
  | .error _ => [searchFallbackText]

/-- The `MockQdrantClient` installed at module load when the real Qdrant
connection fails: `search` always returns one `ScoredPoint` with the
fixed placeholder payload. -/
def mockQdrantClient : SearchClient :=
  ⟨fun _ _ _ =>
    .ok [⟨1, 1, 0.9, [("text", "ROS 2 is a middleware framework for robotics...")], []⟩]⟩

/-- The personalization block of `generate_answer`: empty when
`user_profile` is falsy, otherwise the f-string block using
`user_profile.get(key, default)` for each field. -/
def personalizationBlock (user_profile : Option ProfileDict) : String :=
  match user_profile with
  | none => ""
  | some up =>
    "\nUser Profile:\n- Software Background: " ++ dictGet up.software_background "Unknown" ++
    "\n- Hardware Background: " ++ dictGet up.hardware_background "Unknown" ++
    "\n- Experience Level: " ++ dictGet up.experience_level "beginner" ++
    "\n- OS: " ++ dictGet up.operating_system "Unknown" ++
    "\n\nAdapt your answer to match the user\x27s background and experience level.\n"

/-- The language instruction of `generate_answer`: the Urdu directive
when `language == "ur"`, otherwise the empty string. -/
def languageInstruction (language : String) : String :=
  if language = "ur" then
    "Please respond in Urdu (اردو) with proper RTL formatting."
  else ""

/-- `"\n\n".join(context)`. -/
def contextTextOf (context : List String) : String :=
  String.intercalate "\n\n" context

/-- The fixed instruction block closing the prompt of `generate_answer`. -/
def answerInstructions : String :=
  "\n\nInstructions:\n1. Answer ONLY based on the provided context from the textbook\n2. If the context doesn\x27t contain the answer, say \"I don\x27t have enough information in the textbook to answer that.\"\n3. Be concise but thorough\n4. Use examples from the context when relevant\n5. If personalization info is provided, adapt your explanation to the user\x27s level\n\nAnswer:"

/-- The prompt f-string of `generate_answer`, with the personalization
and language-instruction slots taken as explicit string arguments. -/
def composedPromptWith (question : String) (context : List String)
    (personalization langInstr : String) : String :=
  "You are an AI assistant for a Physical AI & Humanoid Robotics textbook.\n\n" ++
  personalization ++
  "\n\nContext from the textbook:\n" ++
  contextTextOf context ++
  "\n\n" ++
  langInstr ++
  "\n\nUser Question: " ++
  question ++
  answerInstructions

/-- The full prompt `generate_answer` builds from its four inputs. -/
def composedPrompt (question : String) (context : List String)
    (user_profile : Option ProfileDict) (language : String) : String :=
  composedPromptWith question context
    (personalizationBlock user_profile) (languageInstruction language)

/-- `GeminiRAG.generate_answer`: builds the prompt, calls the model, and
on any exception returns the apology string embedding `str(e)`. -/
def generate_answer (model : GenModel) (question : String) (context : List String)
    (user_profile : Option ProfileDict) (language : String) : String :=
  match model.generate_content (composedPrompt question context user_profile language) with
  | .ok r => r
  | .error e =>
    "I apologize, but I encountered an error generating a response. Error: " ++ e

/-- The translation prompt of `GeminiRAG.translate_to_urdu`. -/
def translatePrompt (text : String) : String :=
  "Translate the following text to Urdu (اردو). \nMaintain technical terms in English if they don\x27t have common Urdu equivalents.\nUse proper RTL formatting.\n\nText to translate:\n" ++
  text ++
  "\n\nUrdu Translation:"

/-- `GeminiRAG.translate_to_urdu`: calls the model on the translation
prompt; on any exception returns the original text unchanged. -/
def translate_to_urdu (model : GenModel) (text : String) : String :=
  match model.generate_content (translatePrompt text) with
  | .ok r => r
  | .error _ => text

/-- The adaptation prompt of `GeminiRAG.personalize_content`. -/
def personalizePrompt (content : String) (user_profile : ProfileDict) : String :=
  "Adapt the following educational content for a user with this profile:\n- Software Background: " ++
  dictGet user_profile.software_background "Unknown" ++
  "\n- Hardware Background: " ++
  dictGet user_profile.hardware_background "Unknown" ++
  "\n- Experience Level: " ++
  dictGet user_profile.experience_level "beginner" ++
  "\n\nOriginal Content:\n" ++
  content ++
  "\n\nInstructions:\n1. Adjust complexity to match experience level\n2. Add relevant examples based on their background\n3. Use analogies they would understand\n4. Keep the same structure and key concepts\n\nPersonalized Content:"

/-- `GeminiRAG.personalize_content`: calls the model on the adaptation
prompt; on any exception returns the original content unchanged. -/
def personalize_content (model : GenModel) (content : String)
    (user_profile : ProfileDict) : String :=
  match model.generate_content (personalizePrompt content user_profile) with
  | .ok r => r
  | .error _ => content

/-- The `/api/ask` request body (`AskRequest` in `main.py`). -/
structure AskRequest where
  question : String
  selected_text : Option String
  language : String

/-- The `/api/ask` response body (`AskResponse` in `main.py`). -/
structure AskResponse where
  answer : String
  sources : List String
deriving DecidableEq

/-- The retrieval query built in `ask_question`: `selected_text` is
prepended when it is truthy (present and non-empty), otherwise the raw
question is used. -/
def build_query (question : String) (selected_text : Option String) : String :=
  match selected_text with
  | some s =>
    if s = "" then question
    else "Based on this text: \x27" ++ s ++ "\x27\n\nQuestion: " ++ question
  | none => question

/-- The RAG part of the `/api/ask` handler `ask_question`: builds the
query, retrieves context with it, generates the answer from the raw
question and that context, and returns the answer with the fixed source
list. -/
def ask_question (provider : EmbedProvider) (client : SearchClient) (model : GenModel)
    (req : AskRequest) (profile : Option ProfileDict) : AskResponse :=
  let query := build_query req.question req.selected_text
  let context := search_context provider client query 3
  let answer := generate_answer model req.question context profile req.language
  { answer := answer, sources := ["Textbook Content"] }

/-- The exact prompt string handed to the generation provider by the
`/api/ask` pipeline. -/
def promptSent (provider : EmbedProvider) (client : SearchClient)
    (req : AskRequest) (profile : Option ProfileDict) : String :=
  composedPrompt req.question
    (search_context provider client (build_query req.question req.selected_text) 3)
    profile req.language

/-! ### Substring machinery -/

/-- `hasSubstr pat s` decides whether `pat` occurs contiguously in `s`. -/
def hasSubstr (pat : List Char) : List Char → Bool
  | [] => pat.isEmpty
  | c :: t => pat.isPrefixOf (c :: t) || hasSubstr pat t

/-- `containsSub s pat`: the string `pat` occurs as a contiguous
substring of `s`. -/
def containsSub (s pat : String) : Bool :=
  hasSubstr pat.data s.data

theorem isPrefixOf_self_append (p r : List Char) : p.isPrefixOf (p ++ r) = true := by
  induction p with
  | nil => simp [List.isPrefixOf]
  | cons c t ih => simp [List.isPrefixOf, ih]

theorem hasSubstr_here (pat r : List Char) : hasSubstr pat (pat ++ r) = true := by
  cases pat with
  | nil =>
    cases r with
    | nil => simp [hasSubstr]
    | cons c t => simp [hasSubstr, List.isPrefixOf]
  | cons c t =>
    simp [hasSubstr, List.isPrefixOf, isPrefixOf_self_append]

theorem hasSubstr_cons (pat : List Char) (c : Char) (s : List Char)
    (h : hasSubstr pat s = true) : hasSubstr pat (c :: s) = true := by
  simp [hasSubstr, h]

theorem hasSubstr_append_right (x rest pat : List Char)
    (h : hasSubstr pat rest = true) : hasSubstr pat (x ++ rest) = true := by
  induction x with
  | nil => simpa using h
  | cons c t ih => exact hasSubstr_cons pat c (t ++ rest) ih

theorem containsSub_of_data_split (s pat : String) (a b : List Char)
    (h : s.data = a ++ (pat.data ++ b)) : containsSub s pat = true := by
  unfold containsSub
  rw [h]
  exact hasSubstr_append_right a (pat.data ++ b) pat.data (hasSubstr_here pat.data b)

theorem containsSub_mid_data (s pat : String) (a b : List Char)
    (h : s.data = a ++ pat.data ++ b) : containsSub s pat = true := by
  apply containsSub_of_data_split s pat a b
  rw [h, List.append_assoc]

/-! ### Concrete providers used by witnesses and counterexamples -/

def failingEmbedC2 : EmbedProvider := ⟨fun _ => .error "quota exceeded"⟩

def failingEmbedC3 : EmbedProvider := ⟨fun _ => .error "network down"⟩

def failingSearchClientC3 : SearchClient := ⟨fun _ _ _ => .error "connection refused"⟩

def okEmbedC4 : EmbedProvider := ⟨fun _ => .ok (List.replicate 768 0.5)⟩

def emptyPayloadClientC4 : SearchClient :=
  ⟨fun _ _ _ => .ok [⟨1, 1, 0.9, [], []⟩]⟩

def failingGenC5 : GenModel := ⟨fun _ => .error "503 service unavailable"⟩

def failingGenC9 : GenModel := ⟨fun _ => .error "deadline exceeded"⟩

def profileC9 : ProfileDict :=
  ⟨some (.pystr "Python"), some .pynone, some (.pystr "beginner"), some .pynone⟩

/-! ### Claims -/

/-- C2: if the embedding provider raises, `generate_embedding` returns a
vector of exactly 768 zeros; being a total function into `List Float`,
it raises nothing to its caller. -/
theorem embedding_failure_returns_768_zeros
    (provider : EmbedProvider) (text e : String)
    (h : provider.embed_content text = .error e) :
    generate_embedding provider text = List.replicate 768 0.0 := by
  unfold generate_embedding
  rw [h]

theorem embedding_failure_returns_768_zeros_witness :
    generate_embedding failingEmbedC2 "What is ROS 2?" = List.replicate 768 0.0 :=
  embedding_failure_returns_768_zeros failingEmbedC2 "What is ROS 2?" "quota exceeded" rfl

/-- C3: if the search call raises, `search_context` returns exactly the
one canned passage; if the client is the startup fallback
`MockQdrantClient` (installed when Qdrant is unreachable), it returns
exactly the mock's one placeholder passage.  Both paths are total. -/
theorem search_failure_returns_single_placeholder :
    (∀ (provider : EmbedProvider) (client : SearchClient) (q : String) (lim : Nat) (e : String),
        client.search "textbook_content" (generate_embedding provider q) lim = .error e →
        search_context provider client q lim = [searchFallbackText])
    ∧ (∀ (provider : EmbedProvider) (q : String) (lim : Nat),
        search_context provider mockQdrantClient q lim =
          ["ROS 2 is a middleware framework for robotics..."]) := by
  constructor
  · intro provider client q lim e h
    unfold search_context
    rw [h]
  · intro provider q lim
    rfl

theorem search_failure_returns_single_placeholder_witness :
    search_context failingEmbedC3 failingSearchClientC3 "What is ROS 2?" 3 =
      [searchFallbackText] :=
  search_failure_returns_single_placeholder.1 failingEmbedC3 failingSearchClientC3
    "What is ROS 2?" 3 "connection refused" rfl

/-- C6: prompt composition is deterministic — equal inputs give
byte-identical prompt strings (the composer is a pure function of
`(question, context, profile, language)`). -/
theorem prompt_composition_deterministic
    (q1 q2 : String) (c1 c2 : List String) (p1 p2 : Option ProfileDict) (l1 l2 : String)
    (hq : q1 = q2) (hc : c1 = c2) (hp : p1 = p2) (hl : l1 = l2) :
    composedPrompt q1 c1 p1 l1 = composedPrompt q2 c2 p2 l2 := by
  rw [hq, hc, hp, hl]

theorem prompt_composition_deterministic_witness :
    composedPrompt "What is ROS 2?" [searchFallbackText] none "en" =
      composedPrompt "What is ROS 2?" [searchFallbackText] none "en" :=
  prompt_composition_deterministic "What is ROS 2?" "What is ROS 2?"
    [searchFallbackText] [searchFallbackText] none none "en" "en" rfl rfl rfl rfl

/-- C9: if the generation provider raises, `translate_to_urdu` and
`personalize_content` both return the original content unchanged; both
are total functions, raising nothing to their callers. -/
theorem personalize_translate_failure_returns_original :
    (∀ (model : GenModel) (text e : String),
        model.generate_content (translatePrompt text) = .error e →
        translate_to_urdu model text = text)
    ∧ (∀ (model : GenModel) (content : String) (up : ProfileDict) (e : String),
        model.generate_content (personalizePrompt content up) = .error e →
        personalize_content model content up = content) := by
  constructor
  · intro model text e h
    unfold translate_to_urdu
    rw [h]
  · intro model content up e h
    unfold personalize_content
    rw [h]

theorem personalize_translate_failure_returns_original_witness :
    translate_to_urdu failingGenC9 "hello robot" = "hello robot"
    ∧ personalize_content failingGenC9 "hello robot" profileC9 = "hello robot" :=
  ⟨personalize_translate_failure_returns_original.1 failingGenC9 "hello robot"
      "deadline exceeded" rfl,
    personalize_translate_failure_returns_original.2 failingGenC9 "hello robot" profileC9
      "deadline exceeded" rfl⟩

/-- C5: if the generation provider raises, `generate_answer` returns the
fixed apology string embedding `str(e)`, which contains the literal
substring `"error"`; the function is total, raising nothing. -/
theorem generation_failure_returns_apology
    (model : GenModel) (q : String) (ctx : List String) (p : Option ProfileDict)
    (lang e : String)
    (h : model.generate_content (composedPrompt q ctx p lang) = .error e) :
    generate_answer model q ctx p lang =
      "I apologize, but I encountered an error generating a response. Error: " ++ e
    ∧ containsSub (generate_answer model q ctx p lang) "error" = true := by
  have hg : generate_answer model q ctx p lang =
      "I apologize, but I encountered an error generating a response. Error: " ++ e := by
    unfold generate_answer
    rw [h]
  refine ⟨hg, ?_⟩
  apply containsSub_mid_data _ _ ("I apologize, but I encountered an " : String).data
    ((" generating a response. Error: " : String).data ++ e.data)
  rw [hg]
  have hsplit :
      ("I apologize, but I encountered an error generating a response. Error: " : String).data =
        ("I apologize, but I encountered an " : String).data ++ ("error" : String).data ++
          (" generating a response. Error: " : String).data := by decide
  simp [String.data_append, hsplit, List.append_assoc]

theorem generation_failure_returns_apology_witness :
    generate_answer failingGenC5 "What is ROS 2?" [searchFallbackText] none "en" =
      "I apologize, but I encountered an error generating a response. Error: " ++
        "503 service unavailable"
    ∧ containsSub
        (generate_answer failingGenC5 "What is ROS 2?" [searchFallbackText] none "en")
        "error" = true :=
  generation_failure_returns_apology failingGenC5 "What is ROS 2?" [searchFallbackText]
    none "en" "503 service unavailable" rfl

/-- C8: the prompt composed with language `"ur"` contains the Urdu
locale directive; with language `"en"` the instruction slot is the empty
string, so the composed prompt is exactly the prompt with no directive
inserted. -/
theorem language_directive_only_for_urdu (q : String) (ctx : List String) :
    containsSub (composedPrompt q ctx none "ur")
      "Please respond in Urdu (اردو) with proper RTL formatting." = true
    ∧ languageInstruction "en" = ""
    ∧ composedPrompt q ctx none "en" = composedPromptWith q ctx "" "" := by
  refine ⟨?_, rfl, rfl⟩
  apply containsSub_mid_data _ _
    (("You are an AI assistant for a Physical AI & Humanoid Robotics textbook.\n\n" : String).data ++
      ("" : String).data ++ ("\n\nContext from the textbook:\n" : String).data ++
      (contextTextOf ctx).data ++ ("\n\n" : String).data)
    (("\n\nUser Question: " : String).data ++ q.data ++ answerInstructions.data)
  simp [composedPrompt, composedPromptWith, personalizationBlock, languageInstruction,
    String.data_append, List.append_assoc]

def noneFieldsProfileC1 : ProfileDict :=
  ⟨some .pynone, some (.pystr "Arduino"), some (.pystr "beginner"), some .pynone⟩

/-- C1 (evaluation at the failing input): the profile dict built by
`ask_question` for a user whose `software_background` and
`operating_system` columns are NULL has those keys present with value
`None`, so `dict.get(key, "Unknown")` returns `None` and the block
renders the literal `"None"` — the substring `"Unknown"` appears
nowhere in the block, contradicting the claim. -/
theorem none_profile_fields_render_none_not_unknown :
    personalizationBlock (some noneFieldsProfileC1) =
      "\nUser Profile:\n- Software Background: None\n- Hardware Background: Arduino\n- Experience Level: beginner\n- OS: None\n\nAdapt your answer to match the user\x27s background and experience level.\n"
    ∧ containsSub (personalizationBlock (some noneFieldsProfileC1)) "Unknown" = false
    ∧ containsSub (personalizationBlock (some noneFieldsProfileC1)) "None" = true := by
  refine ⟨by decide, by decide, by decide⟩

/-- C4 counterexample: a search hit whose payload lacks the `"text"`
field makes `search_context` return `[""]` — it does not crash, but it
is not treated identically to an unavailable vector store, whose result
is the canned placeholder passage. -/
theorem missing_text_field_counterexample :
    search_context okEmbedC4 emptyPayloadClientC4 "What is ROS 2?" 3 = [""]
    ∧ search_context okEmbedC4 emptyPayloadClientC4 "What is ROS 2?" 3 ≠
        [searchFallbackText] := by
  have h0 : search_context okEmbedC4 emptyPayloadClientC4 "What is ROS 2?" 3 = [""] := rfl
  refine ⟨h0, ?_⟩
  rw [h0]
  decide

/-- C4 amended: on a successful search response, `search_context` never
crashes; each hit whose payload is missing the `"text"` field
contributes the empty string (the `payload.get` default), not the
unavailable-store placeholder passage. -/
theorem search_ok_maps_missing_text_to_empty
    (provider : EmbedProvider) (client : SearchClient) (q : String) (lim : Nat)
    (hits : List ScoredPoint)
    (h : client.search "textbook_content" (generate_embedding provider q) lim = .ok hits) :
    search_context provider client q lim =
      hits.map (fun hit => payloadGet hit.payload "text" "") := by
  unfold search_context
  rw [h]

theorem search_ok_maps_missing_text_to_empty_witness :
    search_context okEmbedC4 emptyPayloadClientC4 "q" 3 =
      List.map (fun hit => payloadGet hit.payload "text" "")
        ([⟨1, 1, 0.9, [], []⟩] : List ScoredPoint) :=
  search_ok_maps_missing_text_to_empty okEmbedC4 emptyPayloadClientC4 "q" 3
    ([⟨1, 1, 0.9, [], []⟩] : List ScoredPoint) rfl

/-- C7: the retrieval query built with `selected_text = "X"` differs
from the one built with `selected_text = None`; `ask_question` passes
the built query (selected text prepended when present) to
`search_context`, which embeds exactly that query and searches with the
resulting vector. -/
theorem selected_text_changes_retrieval_query
    (Y : String) (provider : EmbedProvider) (client : SearchClient) :
    build_query Y (some "X") ≠ build_query Y none
    ∧ (∀ (st : Option String) (lang : String) (model : GenModel)
          (profile : Option ProfileDict),
        ask_question provider client model ⟨Y, st, lang⟩ profile =
          ⟨generate_answer model Y
              (search_context provider client (build_query Y st) 3) profile lang,
            ["Textbook Content"]⟩)
    ∧ (∀ (q : String) (lim : Nat),
        search_context provider client q lim =
          match client.search "textbook_content" (generate_embedding provider q) lim with
          | .ok hits => hits.map (fun hit => payloadGet hit.payload "text" "")
          | .error _ => [searchFallbackText]) := by
  refine ⟨?_, fun st lang model profile => rfl, fun q lim => rfl⟩
  intro h
  have e1 : build_query Y (some "X") =
      "Based on this text: \x27" ++ "X" ++ "\x27\n\nQuestion: " ++ Y := rfl
  have e2 : build_query Y none = Y := rfl
  rw [e1, e2] at h
  have h2 := congrArg (fun s => s.data.length) h
  simp [String.data_append] at h2
  omega

def embedC10 : EmbedProvider := ⟨fun _ => .ok (List.replicate 768 0.25)⟩

/-- C10: the prompt handed to the generation provider is composed from
the raw question (its question section is `User Question: <question>`
followed directly by the instruction block), the retrieved context, the
profile and the language; `selected_text` reaches the pipeline only
through the retrieval query, so two requests whose retrievals return
the same context produce byte-identical prompts regardless of their
selected texts. -/
theorem selected_text_absent_from_prompt
    (provider : EmbedProvider) (client : SearchClient) (req : AskRequest)
    (profile : Option ProfileDict) :
    promptSent provider client req profile =
      composedPrompt req.question
        (search_context provider client (build_query req.question req.selected_text) 3)
        profile req.language
    ∧ (∀ model : GenModel,
        ask_question provider client model req profile =
          ⟨match model.generate_content (promptSent provider client req profile) with
            | .ok r => r
            | .error e =>
              "I apologize, but I encountered an error generating a response. Error: " ++ e,
            ["Textbook Content"]⟩)
    ∧ containsSub (promptSent provider client req profile)
        ("\n\nUser Question: " ++ req.question ++ answerInstructions) = true
    ∧ (∀ st1 st2 : Option String,
        search_context provider client (build_query req.question st1) 3 =
          search_context provider client (build_query req.question st2) 3 →
        promptSent provider client ⟨req.question, st1, req.language⟩ profile =
          promptSent provider client ⟨req.question, st2, req.language⟩ profile) := by
  refine ⟨rfl, fun model => rfl, ?_, ?_⟩
  · apply containsSub_mid_data _ _
      (("You are an AI assistant for a Physical AI & Humanoid Robotics textbook.\n\n" : String).data ++
        (personalizationBlock profile).data ++
        ("\n\nContext from the textbook:\n" : String).data ++
        (contextTextOf
          (search_context provider client (build_query req.question req.selected_text) 3)).data ++
        ("\n\n" : String).data ++ (languageInstruction req.language).data)
      ([])
    simp [promptSent, composedPrompt, composedPromptWith, String.data_append,
      List.append_assoc]
  · intro st1 st2 hretr
    unfold promptSent
    simp only
    rw [hretr]

theorem selected_text_absent_from_prompt_witness :
    promptSent embedC10 mockQdrantClient ⟨"What is ROS 2?", some "X", "en"⟩ none =
      promptSent embedC10 mockQdrantClient ⟨"What is ROS 2?", none, "en"⟩ none :=
  (selected_text_absent_from_prompt embedC10 mockQdrantClient
      ⟨"What is ROS 2?", some "X", "en"⟩ none).2.2.2 (some "X") none rfl

def embedC7 : EmbedProvider := ⟨fun _ => .error "embed down"⟩

def clientC7 : SearchClient := ⟨fun _ _ _ => .error "search down"⟩

theorem selected_text_changes_retrieval_query_witness :
    build_query "What is ROS 2?" (some "X") ≠ build_query "What is ROS 2?" none :=
  (selected_text_changes_retrieval_query "What is ROS 2?" embedC7 clientC7).1

theorem language_directive_only_for_urdu_witness :
    containsSub (composedPrompt "What is ROS 2?" [searchFallbackText] none "ur")
      "Please respond in Urdu (اردو) with proper RTL formatting." = true
    ∧ languageInstruction "en" = ""
    ∧ composedPrompt "What is ROS 2?" [searchFallbackText] none "en" =
        composedPromptWith "What is ROS 2?" [searchFallbackText] "" "" :=
  language_directive_only_for_urdu "What is ROS 2?" [searchFallbackText]
